import Mathlib

/-!
Verification of the `rustranslate` translation client (src/main.rs).

The program is a single-operation HTTP client: `Translator::translate` issues
a GET request to a fixed endpoint, reads the body as text, parses it as JSON,
and extracts the string at JSON path `[0][0][0]`.  A missing or non-string
value at that path is retried up to 3 times with a randomized sleep between
attempts; transport and parse failures terminate immediately.

Shallow embedding: the environment is modelled by a response sequence
`resp : Nat → HttpResponse` (the outcome of the k-th HTTP attempt) and a
random stream `rng : Nat → Fin 6` (the k-th draw of `rng.gen_range(0..=5)`,
whose contract guarantees a value in [0,5]).  `translate` returns a `RunTrace`
recording the result, the requests issued (one per attempt, in order) and the
sleep durations performed (in milliseconds, in order).
-/

namespace Rustranslate

/-- JSON values, mirroring `serde_json::Value` (numbers abstracted to `Int`;
the program only ever distinguishes strings from non-strings). -/
inductive Json where
  | null
  | bool (b : Bool)
  | num (n : Int)
  | str (s : String)
  | arr (elems : List Json)
  | obj (fields : List (String × Json))

/-- Indexing `value[i]` from `serde_json`: on an array, the element at `i` or
`Null` when out of range; on any other value, `Null`. -/
def Json.index (j : Json) (i : Nat) : Json :=
  match j with
  | .arr elems => elems.getD i Json.null
  | _ => Json.null

/-- The `Value::as_str` accessor: `Some s` exactly on JSON strings. -/
def Json.as_str : Json → Option String
  | .str s => some s
  | _ => none

/-- The extraction `json[0][0][0].as_str()` performed by `translate`. -/
def extract (j : Json) : Option String :=
  (((j.index 0).index 0).index 0).as_str

/-- The error enum `TranslationError` from src/main.rs. -/
inductive TranslationError where
  | RequestFailed
  | ResponseParsingFailed
  | NoTranslationFound (msg : String)
deriving DecidableEq

/-- The `fmt::Display` implementation for `TranslationError`. -/
def TranslationError.display : TranslationError → String
  | .RequestFailed => "Failed to send translation request"
  | .ResponseParsingFailed => "Failed to parse response body as JSON"
  | .NoTranslationFound w => "No translation found for: " ++ w

/-- The `Translator` configuration record (the pooled `reqwest::Client`
handle carries no observable state and is omitted). -/
structure Translator where
  source_lang : String
  target_lang : String
deriving DecidableEq

/-- An HTTP request as built by one attempt of `translate`. -/
structure Request where
  method : String
  url : String
  query : List (String × String)
deriving DecidableEq

/-- The request built by every attempt: GET on the fixed endpoint with the
five query pairs from src/main.rs. -/
def mkRequest (t : Translator) (word : String) : Request :=
  { method := "GET"
    url := "https://translate.googleapis.com/translate_a/single"
    query := [("client", "gtx"), ("dt", "t"),
              ("sl", t.source_lang), ("tl", t.target_lang), ("q", word)] }

/-- The outcome of one HTTP attempt, as observed by `translate`:
the send fails (`transportErr`), `.text()` fails (`textErr`),
`serde_json::from_str` fails (`parseErr`), or the body parses to a JSON
value (`json j`). -/
inductive HttpResponse where
  | transportErr
  | textErr
  | parseErr
  | json (j : Json)

/-- The observable trace of one call to `translate`: its result, the HTTP
requests issued (one per attempt, in order) and the sleeps performed
(durations in milliseconds, in order). -/
structure RunTrace where
  result : Except TranslationError String
  requests : List Request
  sleeps : List Nat

/-- The `loop` body of `Translator::translate`, parameterised by the current
value of the `retries` counter.  Attempt number and retry counter coincide
because only the empty-extraction path loops. -/
def translateGo (t : Translator) (word : String) (resp : Nat → HttpResponse)
    (rng : Nat → Fin 6) (retries : Nat) : RunTrace :=
  let req := mkRequest t word
  match resp retries with
  | HttpResponse.transportErr =>
      { result := Except.error TranslationError.RequestFailed
        requests := [req], sleeps := [] }
  | HttpResponse.textErr =>
      { result := Except.error TranslationError.ResponseParsingFailed
        requests := [req], sleeps := [] }
  | HttpResponse.parseErr =>
      { result := Except.error TranslationError.ResponseParsingFailed
        requests := [req], sleeps := [] }
  | HttpResponse.json j =>
      match extract j with
      | some translation =>
          { result := Except.ok translation, requests := [req], sleeps := [] }
      | none =>
          let error_message := "No translation found for: " ++ word
          if h : retries < 3 then
            let delay := (rng retries).val * 1000
            let rest := translateGo t word resp rng (retries + 1)
            { result := rest.result
              requests := req :: rest.requests
              sleeps := delay :: rest.sleeps }
          else
            { result := Except.error
                (TranslationError.NoTranslationFound error_message)
              requests := [req], sleeps := [] }
termination_by 4 - retries
decreasing_by omega

/-- `Translator::translate`: the loop entered with `retries = 0`. -/
def translate (t : Translator) (word : String) (resp : Nat → HttpResponse)
    (rng : Nat → Fin 6) : RunTrace :=
  translateGo t word resp rng 0

/-- Outcome of the process entry point: print the translation and exit 0,
or panic on `unwrap` of an error. -/
inductive MainOutcome where
  | printed (s : String)
  | panicked (e : TranslationError)
deriving DecidableEq

/-- The `main` function: a translator for "en" to "fr", translating the
literal word "hello"; `.unwrap()` panics on any error, otherwise the string
is printed and the process exits successfully. -/
def mainProgram (resp : Nat → HttpResponse) (rng : Nat → Fin 6) : MainOutcome :=
  match (translate (Translator.mk "en" "fr") "hello" resp rng).result with
  | Except.ok translation => MainOutcome.printed translation
  | Except.error e => MainOutcome.panicked e

/-- Step lemma: a transport failure on the current attempt terminates with
`RequestFailed` and no further request or sleep. -/
theorem go_transport (t : Translator) (w : String) (resp : Nat → HttpResponse)
    (rng : Nat → Fin 6) (retries : Nat)
    (h : resp retries = HttpResponse.transportErr) :
    translateGo t w resp rng retries =
      { result := Except.error TranslationError.RequestFailed
        requests := [mkRequest t w], sleeps := [] } := by
  rw [translateGo.eq_def, h]

/-- Step lemma: a body-decode failure terminates with
`ResponseParsingFailed`. -/
theorem go_text (t : Translator) (w : String) (resp : Nat → HttpResponse)
    (rng : Nat → Fin 6) (retries : Nat)
    (h : resp retries = HttpResponse.textErr) :
    translateGo t w resp rng retries =
      { result := Except.error TranslationError.ResponseParsingFailed
        requests := [mkRequest t w], sleeps := [] } := by
  rw [translateGo.eq_def, h]

/-- Step lemma: a JSON-parse failure terminates with
`ResponseParsingFailed`. -/
theorem go_parse (t : Translator) (w : String) (resp : Nat → HttpResponse)
    (rng : Nat → Fin 6) (retries : Nat)
    (h : resp retries = HttpResponse.parseErr) :
    translateGo t w resp rng retries =
      { result := Except.error TranslationError.ResponseParsingFailed
        requests := [mkRequest t w], sleeps := [] } := by
  rw [translateGo.eq_def, h]

/-- Step lemma: a string at path `[0][0][0]` returns it immediately. -/
theorem go_ok (t : Translator) (w : String) (resp : Nat → HttpResponse)
    (rng : Nat → Fin 6) (retries : Nat) (j : Json) (s : String)
    (h : resp retries = HttpResponse.json j) (hs : extract j = some s) :
    translateGo t w resp rng retries =
      { result := Except.ok s, requests := [mkRequest t w], sleeps := [] } := by
  rw [translateGo.eq_def, h]
  simp only [hs]

/-- Step lemma: an empty extraction with retry budget left sleeps the drawn
delay and loops with `retries + 1`. -/
theorem go_retry (t : Translator) (w : String) (resp : Nat → HttpResponse)
    (rng : Nat → Fin 6) (retries : Nat) (j : Json)
    (h : resp retries = HttpResponse.json j) (hn : extract j = none)
    (hlt : retries < 3) :
    translateGo t w resp rng retries =
      { result := (translateGo t w resp rng (retries + 1)).result
        requests := mkRequest t w ::
          (translateGo t w resp rng (retries + 1)).requests
        sleeps := (rng retries).val * 1000 ::
          (translateGo t w resp rng (retries + 1)).sleeps } := by
  rw [translateGo.eq_def, h]
  simp only [hn, dif_pos hlt]

/-- Step lemma: an empty extraction with the budget exhausted terminates
with `NoTranslationFound` carrying the formatted message. -/
theorem go_exhausted (t : Translator) (w : String) (resp : Nat → HttpResponse)
    (rng : Nat → Fin 6) (retries : Nat) (j : Json)
    (h : resp retries = HttpResponse.json j) (hn : extract j = none)
    (hge : ¬ retries < 3) :
    translateGo t w resp rng retries =
      { result := Except.error (TranslationError.NoTranslationFound
          ("No translation found for: " ++ w))
        requests := [mkRequest t w], sleeps := [] } := by
  rw [translateGo.eq_def, h]
  simp only [hn, dif_neg hge]

/-- Traversal lemma: when the first `d` attempts starting at `retries` all
yield JSON with an empty extraction, the run from `retries` issues `d` more
requests and `d` more sleeps than the run from `retries + d`, and has the
same result. -/
theorem go_empty_seg (t : Translator) (w : String) (resp : Nat → HttpResponse)
    (rng : Nat → Fin 6) :
    ∀ d retries, retries + d ≤ 3 →
      (∀ i, retries ≤ i → i < retries + d →
        ∃ j, resp i = HttpResponse.json j ∧ extract j = none) →
      (translateGo t w resp rng retries).result
          = (translateGo t w resp rng (retries + d)).result ∧
      (translateGo t w resp rng retries).requests.length
          = d + (translateGo t w resp rng (retries + d)).requests.length ∧
      (translateGo t w resp rng retries).sleeps.length
          = d + (translateGo t w resp rng (retries + d)).sleeps.length := by
  intro d
  induction d with
  | zero => intro retries _ _; simp
  | succ d ih =>
    intro retries hle h
    obtain ⟨j, hj, he⟩ := h retries le_rfl (by omega)
    rw [go_retry t w resp rng retries j hj he (by omega)]
    have harith : retries + (d + 1) = retries + 1 + d := by omega
    rw [harith]
    obtain ⟨h1, h2, h3⟩ := ih (retries + 1) (by omega)
      (fun i hi1 hi2 => h i (by omega) (by omega))
    refine ⟨h1, ?_, ?_⟩
    · simp only [List.length_cons]
      omega
    · simp only [List.length_cons]
      omega

/-- Trace invariants of the loop, by induction on the remaining budget:
a `NoTranslationFound` result always carries the formatted message, every
sleep is a multiple of 1000 by a draw in [0,5], and every request is the
fixed GET built by `mkRequest`. -/
theorem go_invariants (t : Translator) (w : String) (resp : Nat → HttpResponse)
    (rng : Nat → Fin 6) :
    ∀ n retries, 4 - retries ≤ n →
      (∀ m, (translateGo t w resp rng retries).result
          = Except.error (TranslationError.NoTranslationFound m) →
          m = "No translation found for: " ++ w) ∧
      (∀ d, d ∈ (translateGo t w resp rng retries).sleeps →
          ∃ r, r ≤ 5 ∧ d = r * 1000) ∧
      (∀ req, req ∈ (translateGo t w resp rng retries).requests →
          req = mkRequest t w) := by
  intro n
  induction n with
  | zero =>
    intro retries hn
    have hge : ¬ retries < 3 := by omega
    cases hr : resp retries with
    | transportErr => rw [go_transport t w resp rng retries hr]; simp
    | textErr => rw [go_text t w resp rng retries hr]; simp
    | parseErr => rw [go_parse t w resp rng retries hr]; simp
    | json j =>
      cases hx : extract j with
      | some s => rw [go_ok t w resp rng retries j s hr hx]; simp
      | none =>
        rw [go_exhausted t w resp rng retries j hr hx hge]
        simp
  | succ n ih =>
    intro retries hn
    cases hr : resp retries with
    | transportErr => rw [go_transport t w resp rng retries hr]; simp
    | textErr => rw [go_text t w resp rng retries hr]; simp
    | parseErr => rw [go_parse t w resp rng retries hr]; simp
    | json j =>
      cases hx : extract j with
      | some s => rw [go_ok t w resp rng retries j s hr hx]; simp
      | none =>
        by_cases hlt : retries < 3
        · rw [go_retry t w resp rng retries j hr hx hlt]
          obtain ⟨ihm, ihs, ihr⟩ := ih (retries + 1) (by omega)
          refine ⟨fun m hm => ihm m hm, ?_, ?_⟩
          · intro d hd
            rcases List.mem_cons.mp hd with hd | hd
            · exact ⟨(rng retries).val, by omega, hd⟩
            · exact ihs d hd
          · intro req hreq
            rcases List.mem_cons.mp hreq with hreq | hreq
            · exact hreq
            · exact ihr req hreq
        · rw [go_exhausted t w resp rng retries j hr hx hlt]
          simp

/-- Randomness independence of the loop: two runs over the same response
sequence but different random streams produce the same result and the same
request list (only the sleeps may differ). -/
theorem go_rng_indep (t : Translator) (w : String) (resp : Nat → HttpResponse)
    (rng1 rng2 : Nat → Fin 6) :
    ∀ n retries, 4 - retries ≤ n →
      (translateGo t w resp rng1 retries).result
          = (translateGo t w resp rng2 retries).result ∧
      (translateGo t w resp rng1 retries).requests
          = (translateGo t w resp rng2 retries).requests := by
  intro n
  induction n with
  | zero =>
    intro retries hn
    have hge : ¬ retries < 3 := by omega
    cases hr : resp retries with
    | transportErr =>
      rw [go_transport t w resp rng1 retries hr,
        go_transport t w resp rng2 retries hr]
      exact ⟨rfl, rfl⟩
    | textErr =>
      rw [go_text t w resp rng1 retries hr, go_text t w resp rng2 retries hr]
      exact ⟨rfl, rfl⟩
    | parseErr =>
      rw [go_parse t w resp rng1 retries hr, go_parse t w resp rng2 retries hr]
      exact ⟨rfl, rfl⟩
    | json j =>
      cases hx : extract j with
      | some s =>
        rw [go_ok t w resp rng1 retries j s hr hx,
          go_ok t w resp rng2 retries j s hr hx]
        exact ⟨rfl, rfl⟩
      | none =>
        rw [go_exhausted t w resp rng1 retries j hr hx hge,
          go_exhausted t w resp rng2 retries j hr hx hge]
        exact ⟨rfl, rfl⟩
  | succ n ih =>
    intro retries hn
    cases hr : resp retries with
    | transportErr =>
      rw [go_transport t w resp rng1 retries hr,
        go_transport t w resp rng2 retries hr]
      exact ⟨rfl, rfl⟩
    | textErr =>
      rw [go_text t w resp rng1 retries hr, go_text t w resp rng2 retries hr]
      exact ⟨rfl, rfl⟩
    | parseErr =>
      rw [go_parse t w resp rng1 retries hr, go_parse t w resp rng2 retries hr]
      exact ⟨rfl, rfl⟩
    | json j =>
      cases hx : extract j with
      | some s =>
        rw [go_ok t w resp rng1 retries j s hr hx,
          go_ok t w resp rng2 retries j s hr hx]
        exact ⟨rfl, rfl⟩
      | none =>
        by_cases hlt : retries < 3
        · rw [go_retry t w resp rng1 retries j hr hx hlt,
            go_retry t w resp rng2 retries j hr hx hlt]
          obtain ⟨ihres, ihreq⟩ := ih (retries + 1) (by omega)
          exact ⟨ihres, by rw [ihreq]⟩
        · rw [go_exhausted t w resp rng1 retries j hr hx hlt,
            go_exhausted t w resp rng2 retries j hr hx hlt]
          exact ⟨rfl, rfl⟩

/-- The translator built by `main`: source "en", target "fr". -/
def tEnFr : Translator := Translator.mk "en" "fr"

/-- Response sequence whose every body is the JSON value `null`: valid JSON,
empty extraction on every attempt. -/
def respEmpty : Nat → HttpResponse := fun _ => HttpResponse.json Json.null

/-- Random stream drawing 2 on every call. -/
def rngTwo : Nat → Fin 6 := fun _ => 2

/-- Response sequence whose every body carries the string "Bonjour" at path
`[0][0][0]`. -/
def respBonjour : Nat → HttpResponse :=
  fun _ => HttpResponse.json (Json.arr [Json.arr [Json.arr [Json.str "Bonjour"]]])

/-- Response sequence whose every body carries the empty string at path
`[0][0][0]`. -/
def respEmptyStr : Nat → HttpResponse :=
  fun _ => HttpResponse.json (Json.arr [Json.arr [Json.arr [Json.str ""]]])

/-- Response sequence: two empty extractions, then a transport failure. -/
def respMix3 : Nat → HttpResponse :=
  fun k => if k < 2 then HttpResponse.json Json.null
           else HttpResponse.transportErr

/-- Response sequence: one empty extraction, then a body-decode failure. -/
def respTextAfterOne : Nat → HttpResponse :=
  fun k => if k = 0 then HttpResponse.json Json.null else HttpResponse.textErr

/-- Response sequence: one empty extraction, then a body carrying the string
"bonjour" at path `[0][0][0]`. -/
def respSecond : Nat → HttpResponse :=
  fun k => if k = 0 then HttpResponse.json Json.null
           else HttpResponse.json
             (Json.arr [Json.arr [Json.arr [Json.str "bonjour"]]])

/-- Concrete evaluation: against `respEmpty`, the run makes 4 attempts,
sleeps 2000 ms three times and fails with the formatted message. -/
theorem respEmpty_run :
    translate tEnFr "hello" respEmpty rngTwo =
      { result := Except.error (TranslationError.NoTranslationFound
          "No translation found for: hello")
        requests := [mkRequest tEnFr "hello", mkRequest tEnFr "hello",
          mkRequest tEnFr "hello", mkRequest tEnFr "hello"]
        sleeps := [2000, 2000, 2000] } := by
  have e1 : (0 : Nat) + 1 = 1 := rfl
  have e2 : (1 : Nat) + 1 = 2 := rfl
  have e3 : (2 : Nat) + 1 = 3 := rfl
  unfold translate
  rw [go_retry tEnFr "hello" respEmpty rngTwo 0 Json.null rfl rfl (by omega),
    e1, go_retry tEnFr "hello" respEmpty rngTwo 1 Json.null rfl rfl (by omega),
    e2, go_retry tEnFr "hello" respEmpty rngTwo 2 Json.null rfl rfl (by omega),
    e3, go_exhausted tEnFr "hello" respEmpty rngTwo 3 Json.null rfl rfl
      (by omega)]
  rfl

/-- Concrete evaluation: against `respSecond`, the run makes 2 attempts,
sleeps once and succeeds with "bonjour". -/
theorem respSecond_run :
    translate tEnFr "hello" respSecond rngTwo =
      { result := Except.ok "bonjour"
        requests := [mkRequest tEnFr "hello", mkRequest tEnFr "hello"]
        sleeps := [2000] } := by
  have e1 : (0 : Nat) + 1 = 1 := rfl
  unfold translate
  rw [go_retry tEnFr "hello" respSecond rngTwo 0 Json.null rfl rfl (by omega),
    e1, go_ok tEnFr "hello" respSecond rngTwo 1
      (Json.arr [Json.arr [Json.arr [Json.str "bonjour"]]]) "bonjour" rfl rfl]
  rfl

/-- C1: when every HTTP request succeeds with valid JSON whose `[0][0][0]`
path carries no string, `translate` performs exactly 4 attempts (1 initial
+ 3 retries), sleeps between consecutive attempts (3 sleeps for 4 attempts),
and returns `NoTranslationFound` whose message contains the original word
(it is the word appended to the fixed message text). -/
theorem translate_exhausts_retries (t : Translator) (w : String)
    (resp : Nat → HttpResponse) (rng : Nat → Fin 6)
    (h : ∀ k < 4, ∃ j, resp k = HttpResponse.json j ∧ extract j = none) :
    (translate t w resp rng).requests.length = 4 ∧
    (translate t w resp rng).sleeps.length = 3 ∧
    (translate t w resp rng).result = Except.error
      (TranslationError.NoTranslationFound
        ("No translation found for: " ++ w)) := by
  obtain ⟨hres, hreq, hsle⟩ := go_empty_seg t w resp rng 3 0 (by omega)
    (fun i hi1 hi2 => h i (by omega))
  rw [Nat.zero_add] at hres hreq hsle
  obtain ⟨j3, hj3, he3⟩ := h 3 (by omega)
  rw [go_exhausted t w resp rng 3 j3 hj3 he3 (by omega)] at hres hreq hsle
  simp at hres hreq hsle
  unfold translate
  exact ⟨hreq, hsle, hres⟩

/-- Witness for C1: the all-`null` response sequence satisfies the
hypothesis, and the run indeed makes 4 attempts, 3 sleeps and fails with
the formatted message. -/
theorem translate_exhausts_retries_witness :
    (∀ k < 4, ∃ j, respEmpty k = HttpResponse.json j ∧ extract j = none) ∧
    ((translate tEnFr "hello" respEmpty rngTwo).requests.length = 4 ∧
     (translate tEnFr "hello" respEmpty rngTwo).sleeps.length = 3 ∧
     (translate tEnFr "hello" respEmpty rngTwo).result = Except.error
       (TranslationError.NoTranslationFound
         ("No translation found for: " ++ "hello"))) := by
  have h : ∀ k < 4, ∃ j, respEmpty k = HttpResponse.json j ∧ extract j = none :=
    fun k _ => ⟨Json.null, rfl, rfl⟩
  exact ⟨h, translate_exhausts_retries tEnFr "hello" respEmpty rngTwo h⟩

/-- Counterexample to C2 as stated: when the endpoint returns valid JSON
carrying the empty string at path `[0][0][0]`, `translate` succeeds with
the empty string, so the success value can be empty. -/
theorem translate_empty_success_counterexample :
    (translate (Translator.mk "en" "fr") "hello" respEmptyStr rngTwo).result
      = Except.ok "" := by
  unfold translate
  rw [go_ok (Translator.mk "en" "fr") "hello" respEmptyStr rngTwo 0
    (Json.arr [Json.arr [Json.arr [Json.str ""]]]) "" rfl rfl]

/-- C2 (amended): `translate` either returns a translated string — possibly
empty, since the code performs no emptiness check on the extracted value —
or exactly one of the three error variants; never both, never neither. -/
theorem translate_result_dichotomy (t : Translator) (w : String)
    (resp : Nat → HttpResponse) (rng : Nat → Fin 6) :
    ((∃ s, (translate t w resp rng).result = Except.ok s) ∧
      ¬ ∃ e, (translate t w resp rng).result = Except.error e) ∨
    ((∃ e, (translate t w resp rng).result = Except.error e) ∧
      ¬ ∃ s, (translate t w resp rng).result = Except.ok s) := by
  cases h : (translate t w resp rng).result with
  | ok s =>
    refine Or.inl ⟨⟨s, rfl⟩, ?_⟩
    rintro ⟨e, he⟩
    exact Except.noConfusion he
  | error e =>
    refine Or.inr ⟨⟨e, rfl⟩, ?_⟩
    rintro ⟨s, hs⟩
    exact Except.noConfusion hs

/-- C3: a transport-level failure on any attempt — including attempts
entered after empty-extraction retries — terminates immediately with
`RequestFailed` and no further attempt, whatever retry budget remains. -/
theorem translate_transport_immediate (t : Translator) (w : String)
    (resp : Nat → HttpResponse) (rng : Nat → Fin 6) (k : Nat) (hk : k ≤ 3)
    (hpre : ∀ i < k, ∃ j, resp i = HttpResponse.json j ∧ extract j = none)
    (hfail : resp k = HttpResponse.transportErr) :
    (translate t w resp rng).result
        = Except.error TranslationError.RequestFailed ∧
    (translate t w resp rng).requests.length = k + 1 := by
  obtain ⟨hres, hreq, -⟩ := go_empty_seg t w resp rng k 0 (by omega)
    (fun i hi1 hi2 => hpre i (by omega))
  rw [Nat.zero_add] at hres hreq
  rw [go_transport t w resp rng k hfail] at hres hreq
  simp at hres hreq
  unfold translate
  exact ⟨hres, hreq⟩

/-- Witness for C3: two empty extractions followed by a transport failure
on the third attempt give `RequestFailed` after exactly 3 requests. -/
theorem translate_transport_immediate_witness :
    ((2 : Nat) ≤ 3 ∧
     (∀ i < 2, ∃ j, respMix3 i = HttpResponse.json j ∧ extract j = none) ∧
     respMix3 2 = HttpResponse.transportErr) ∧
    ((translate tEnFr "hello" respMix3 rngTwo).result
        = Except.error TranslationError.RequestFailed ∧
     (translate tEnFr "hello" respMix3 rngTwo).requests.length = 2 + 1) := by
  have hpre : ∀ i < 2, ∃ j, respMix3 i = HttpResponse.json j ∧
      extract j = none := by
    intro i hi
    interval_cases i
    · exact ⟨Json.null, rfl, rfl⟩
    · exact ⟨Json.null, rfl, rfl⟩
  exact ⟨⟨by omega, hpre, rfl⟩,
    translate_transport_immediate tEnFr "hello" respMix3 rngTwo 2 (by omega)
      hpre rfl⟩

/-- C4: a body-decode failure or a JSON-parse failure on any attempt —
including attempts entered after empty-extraction retries — terminates
immediately with `ResponseParsingFailed` and no retry; the same variant
covers both failure kinds. -/
theorem translate_parsing_immediate (t : Translator) (w : String)
    (resp : Nat → HttpResponse) (rng : Nat → Fin 6) (k : Nat) (hk : k ≤ 3)
    (hpre : ∀ i < k, ∃ j, resp i = HttpResponse.json j ∧ extract j = none)
    (hfail : resp k = HttpResponse.textErr ∨ resp k = HttpResponse.parseErr) :
    (translate t w resp rng).result
        = Except.error TranslationError.ResponseParsingFailed ∧
    (translate t w resp rng).requests.length = k + 1 := by
  obtain ⟨hres, hreq, -⟩ := go_empty_seg t w resp rng k 0 (by omega)
    (fun i hi1 hi2 => hpre i (by omega))
  rw [Nat.zero_add] at hres hreq
  cases hfail with
  | inl hf =>
    rw [go_text t w resp rng k hf] at hres hreq
    simp at hres hreq
    unfold translate
    exact ⟨hres, hreq⟩
  | inr hf =>
    rw [go_parse t w resp rng k hf] at hres hreq
    simp at hres hreq
    unfold translate
    exact ⟨hres, hreq⟩

/-- Witness for C4: one empty extraction followed by a body-decode failure
on the second attempt gives `ResponseParsingFailed` after 2 requests. -/
theorem translate_parsing_immediate_witness :
    ((1 : Nat) ≤ 3 ∧
     (∀ i < 1, ∃ j, respTextAfterOne i = HttpResponse.json j ∧
       extract j = none) ∧
     (respTextAfterOne 1 = HttpResponse.textErr ∨
       respTextAfterOne 1 = HttpResponse.parseErr)) ∧
    ((translate tEnFr "hello" respTextAfterOne rngTwo).result
        = Except.error TranslationError.ResponseParsingFailed ∧
     (translate tEnFr "hello" respTextAfterOne rngTwo).requests.length
        = 1 + 1) := by
  have hpre : ∀ i < 1, ∃ j, respTextAfterOne i = HttpResponse.json j ∧
      extract j = none := by
    intro i hi
    interval_cases i
    exact ⟨Json.null, rfl, rfl⟩
  exact ⟨⟨by omega, hpre, Or.inl rfl⟩,
    translate_parsing_immediate tEnFr "hello" respTextAfterOne rngTwo 1
      (by omega) hpre (Or.inl rfl)⟩

/-- C5: when the first N attempts (N < 3) yield JSON with an empty
extraction and attempt N+1 carries a string s at path `[0][0][0]`,
`translate` returns exactly s and performs no further attempt. -/
theorem translate_success_on_attempt (t : Translator) (w : String)
    (resp : Nat → HttpResponse) (rng : Nat → Fin 6) (N : Nat) (hN : N < 3)
    (hpre : ∀ i < N, ∃ j, resp i = HttpResponse.json j ∧ extract j = none)
    (j : Json) (s : String) (hj : resp N = HttpResponse.json j)
    (hs : extract j = some s) :
    (translate t w resp rng).result = Except.ok s ∧
    (translate t w resp rng).requests.length = N + 1 := by
  obtain ⟨hres, hreq, -⟩ := go_empty_seg t w resp rng N 0 (by omega)
    (fun i hi1 hi2 => hpre i (by omega))
  rw [Nat.zero_add] at hres hreq
  rw [go_ok t w resp rng N j s hj hs] at hres hreq
  simp at hres hreq
  unfold translate
  exact ⟨hres, hreq⟩

/-- Witness for C5: one empty extraction then a body carrying "bonjour"
gives success with "bonjour" after exactly 2 requests. -/
theorem translate_success_on_attempt_witness :
    ((1 : Nat) < 3 ∧
     (∀ i < 1, ∃ j, respSecond i = HttpResponse.json j ∧ extract j = none) ∧
     respSecond 1 = HttpResponse.json
       (Json.arr [Json.arr [Json.arr [Json.str "bonjour"]]]) ∧
     extract (Json.arr [Json.arr [Json.arr [Json.str "bonjour"]]])
       = some "bonjour") ∧
    ((translate tEnFr "hello" respSecond rngTwo).result
        = Except.ok "bonjour" ∧
     (translate tEnFr "hello" respSecond rngTwo).requests.length = 1 + 1) := by
  have hpre : ∀ i < 1, ∃ j, respSecond i = HttpResponse.json j ∧
      extract j = none := by
    intro i hi
    interval_cases i
    exact ⟨Json.null, rfl, rfl⟩
  exact ⟨⟨by omega, hpre, rfl, rfl⟩,
    translate_success_on_attempt tEnFr "hello" respSecond rngTwo 1 (by omega)
      hpre (Json.arr [Json.arr [Json.arr [Json.str "bonjour"]]]) "bonjour"
      rfl rfl⟩

/-- C6: every inter-attempt delay equals r * 1000 milliseconds for some
integer r in the inclusive range [0, 5]; hence every delay is one of
0, 1000, 2000, 3000, 4000 or 5000 milliseconds and no other backoff is
applied. -/
theorem translate_sleep_values (t : Translator) (w : String)
    (resp : Nat → HttpResponse) (rng : Nat → Fin 6) (d : Nat)
    (hd : d ∈ (translate t w resp rng).sleeps) :
    (∃ r, r ≤ 5 ∧ d = r * 1000) ∧
    (d = 0 ∨ d = 1000 ∨ d = 2000 ∨ d = 3000 ∨ d = 4000 ∨ d = 5000) := by
  obtain ⟨-, hs, -⟩ := go_invariants t w resp rng 4 0 (by omega)
  obtain ⟨r, hr, hval⟩ := hs d hd
  refine ⟨⟨r, hr, hval⟩, ?_⟩
  interval_cases r <;> omega

/-- Witness for C6: the all-`null` run with constant draw 2 performs a
2000 ms sleep, which is 2 * 1000 with 2 ≤ 5. -/
theorem translate_sleep_values_witness :
    2000 ∈ (translate tEnFr "hello" respEmpty rngTwo).sleeps ∧
    ((∃ r, r ≤ 5 ∧ 2000 = r * 1000) ∧
     (2000 = 0 ∨ 2000 = 1000 ∨ 2000 = 2000 ∨ 2000 = 3000 ∨ 2000 = 4000 ∨
       2000 = 5000)) := by
  have hd : 2000 ∈ (translate tEnFr "hello" respEmpty rngTwo).sleeps := by
    rw [respEmpty_run]
    simp
  exact ⟨hd, translate_sleep_values tEnFr "hello" respEmpty rngTwo 2000 hd⟩

/-- C7: every request issued by `translate` is a GET on the fixed URL with
exactly the query parameters client=gtx, dt=t, sl=source, tl=target and
q=word. -/
theorem translate_request_shape (t : Translator) (w : String)
    (resp : Nat → HttpResponse) (rng : Nat → Fin 6) (req : Request)
    (h : req ∈ (translate t w resp rng).requests) :
    req.method = "GET" ∧
    req.url = "https://translate.googleapis.com/translate_a/single" ∧
    req.query = [("client", "gtx"), ("dt", "t"),
      ("sl", t.source_lang), ("tl", t.target_lang), ("q", w)] := by
  obtain ⟨-, -, hq⟩ := go_invariants t w resp rng 4 0 (by omega)
  rw [hq req h]
  exact ⟨rfl, rfl, rfl⟩

/-- Witness for C7: the first request of the `respSecond` run is the fixed
GET with the five query pairs. -/
theorem translate_request_shape_witness :
    mkRequest tEnFr "hello" ∈
      (translate tEnFr "hello" respSecond rngTwo).requests ∧
    ((mkRequest tEnFr "hello").method = "GET" ∧
     (mkRequest tEnFr "hello").url
       = "https://translate.googleapis.com/translate_a/single" ∧
     (mkRequest tEnFr "hello").query = [("client", "gtx"), ("dt", "t"),
       ("sl", tEnFr.source_lang), ("tl", tEnFr.target_lang),
       ("q", "hello")]) := by
  have h : mkRequest tEnFr "hello" ∈
      (translate tEnFr "hello" respSecond rngTwo).requests := by
    rw [respSecond_run]
    simp
  exact ⟨h, translate_request_shape tEnFr "hello" respSecond rngTwo
    (mkRequest tEnFr "hello") h⟩

/-- C8: the entry point translates the literal word "hello" with source
"en" and target "fr"; on success it prints the translated string and exits
successfully, and on any error it panics through `unwrap` with that
error. -/
theorem main_behavior (resp : Nat → HttpResponse) (rng : Nat → Fin 6) :
    (∀ s, (translate (Translator.mk "en" "fr") "hello" resp rng).result
        = Except.ok s → mainProgram resp rng = MainOutcome.printed s) ∧
    (∀ e, (translate (Translator.mk "en" "fr") "hello" resp rng).result
        = Except.error e → mainProgram resp rng = MainOutcome.panicked e) := by
  constructor
  · intro s hs
    unfold mainProgram
    rw [hs]
  · intro e he
    unfold mainProgram
    rw [he]

/-- Witness for C8: against `respSecond` the translation succeeds with
"bonjour" and the entry point prints it. -/
theorem main_behavior_witness :
    (translate (Translator.mk "en" "fr") "hello" respSecond rngTwo).result
        = Except.ok "bonjour" ∧
    mainProgram respSecond rngTwo = MainOutcome.printed "bonjour" := by
  have h : (translate (Translator.mk "en" "fr") "hello" respSecond
      rngTwo).result = Except.ok "bonjour" := by
    show (translate tEnFr "hello" respSecond rngTwo).result
      = Except.ok "bonjour"
    rw [respSecond_run]
  exact ⟨h, (main_behavior respSecond rngTwo).1 "bonjour" h⟩

/-- C9: a `NoTranslationFound` result always carries the formatted message
"No translation found for: " followed by the word — not the bare word —
so rendering it through `Display` produces that message text twice. -/
theorem translate_error_message_shape (t : Translator) (w : String)
    (resp : Nat → HttpResponse) (rng : Nat → Fin 6) (m : String)
    (h : (translate t w resp rng).result
        = Except.error (TranslationError.NoTranslationFound m)) :
    m = "No translation found for: " ++ w ∧
    TranslationError.display (TranslationError.NoTranslationFound m)
      = "No translation found for: "
          ++ ("No translation found for: " ++ w) := by
  obtain ⟨hm, -, -⟩ := go_invariants t w resp rng 4 0 (by omega)
  have hmsg := hm m h
  refine ⟨hmsg, ?_⟩
  rw [hmsg]
  rfl

/-- Witness for C9: the all-`null` run fails with the formatted message,
whose `Display` rendering repeats the message text. -/
theorem translate_error_message_shape_witness :
    (translate tEnFr "hello" respEmpty rngTwo).result
        = Except.error (TranslationError.NoTranslationFound
            "No translation found for: hello") ∧
    ("No translation found for: hello"
        = "No translation found for: " ++ "hello" ∧
     TranslationError.display (TranslationError.NoTranslationFound
        "No translation found for: hello")
       = "No translation found for: "
           ++ ("No translation found for: " ++ "hello")) := by
  have h : (translate tEnFr "hello" respEmpty rngTwo).result
      = Except.error (TranslationError.NoTranslationFound
          "No translation found for: hello") := by
    rw [respEmpty_run]
  exact ⟨h, translate_error_message_shape tEnFr "hello" respEmpty rngTwo
    "No translation found for: hello" h⟩

/-- C10: the returned value and the request sequence depend only on the
word, the configured languages and the response sequence; two runs over the
same responses with different random streams return identical results —
the randomness influences only the sleep durations. -/
theorem translate_rng_independent (t : Translator) (w : String)
    (resp : Nat → HttpResponse) (rng1 rng2 : Nat → Fin 6) :
    (translate t w resp rng1).result = (translate t w resp rng2).result ∧
    (translate t w resp rng1).requests
      = (translate t w resp rng2).requests :=
  go_rng_indep t w resp rng1 rng2 4 0 (by omega)

end Rustranslate
